import Mathlib

/-!
Shallow embedding of the rate-client component of the Banking repository
(`src/core-banking/currency_converter.py` and `src/core-banking/exceptions.py`)
together with proofs about its error-classification and redaction behaviour.

The embedding models `CurrencyConverter._make_api_request` as a pure function
from the outcome of the single HTTP attempt (a `Transport` value) to either a
decoded JSON payload or a Python exception (`PyError`).  Behaviour of the
`requests` library that the source relies on is modelled where the source
observably depends on it and is documented at each point:
  * `requests.Response.__bool__` returns `self.ok`, which is `False` exactly
    when `raise_for_status` would raise (status in 4xx/5xx);
  * the `ValueError` raised by `response.json()` on an unparseable body
    (`requests.exceptions.JSONDecodeError`, or `json.JSONDecodeError` on older
    versions) carries no truthy `response` attribute;
  * `Timeout` and `ConnectionError` raised by `requests.get` for transport
    failures carry `response = None`.
-/

namespace Banking

/-- Parsed JSON values: the possible results of `response.json()`.
Objects are the parsed dicts (duplicate keys already collapsed by the JSON
parser, so association-list lookup is dict lookup). -/
inductive Json where
  | str : String → Json
  | num : Rat → Json
  | bool : Bool → Json
  | null : Json
  | arr : List Json → Json
  | obj : List (String × Json) → Json

/-- The exception type of `exceptions.py`: message plus the three optional
attributes set by `ExchangeRateAPIError.__init__`. -/
structure ExchangeRateAPIError where
  message : String
  api_error_type : Option String
  http_status_code : Option Nat
  details : Option Json

/-- Exceptions that can escape `_make_api_request`: the intended
`ExchangeRateAPIError`, or an `AttributeError` raised by calling a `dict`
method on a non-dict value. -/
inductive PyError where
  | apiError : ExchangeRateAPIError → PyError
  | attributeError : String → PyError

/-- Outcome of the single `requests.get(full_url, timeout=10)` attempt.
`timeoutExc` / `connectionErrorExc` are the transport failures raised with
`response = None`; `otherRequestExc` is any other `RequestException`, carrying
its `str(e)` text and the status of its `response` attribute when that
attribute is set; `response` means an HTTP response was received, with its
status code, reason phrase, and body (`none` when the body is not valid
JSON). -/
inductive Transport where
  | timeoutExc
  | connectionErrorExc
  | otherRequestExc (estr : String) (respStatus : Option Nat)
  | response (status : Nat) (reason : String) (body : Option Json)

/-- The exception caught by the `except (RequestException, ValueError)` block
(line 28 of `currency_converter.py`), discriminated exactly as the
`isinstance` chain does. -/
inductive ReqExc where
  | httpError (status : Nat) (reason : String)
  | timeoutE
  | connectionE
  | jsonDecodeE
  | otherE (estr : String) (respStatus : Option Nat)

/-- `response.raise_for_status()` raises `HTTPError` exactly for
4xx and 5xx status codes. -/
def raisesForStatus (status : Nat) : Bool :=
  400 ≤ status && status < 600

/-- Truthiness of a `requests.Response`: `Response.__bool__` returns
`self.ok`, which is `False` exactly when `raise_for_status` raises. -/
def responseTruthy (status : Nat) : Bool :=
  !(raisesForStatus status)

/-- Line 32: `e.response.status_code if hasattr(e, 'response') and e.response
else None`.  Every `RequestException` has a `response` attribute (default
`None`).  `HTTPError` from `raise_for_status` carries the received response,
whose truthiness is `responseTruthy`; `Timeout`/`ConnectionError` from a
transport failure carry `response = None`; the `ValueError` from
`response.json()` carries no truthy response. -/
def excResponseStatus : ReqExc → Option Nat
  | .httpError st _ => if responseTruthy st then some st else none
  | .timeoutE => none
  | .connectionE => none
  | .jsonDecodeE => none
  | .otherE _ r =>
      match r with
      | some st => if responseTruthy st then some st else none
      | none => none

/-- `str(e)` as used by the default message on line 31.  Only the catch-all
branch ever surfaces this text (every other branch overwrites
`user_message`), so only `otherE` carries a modelled string. -/
def excText : ReqExc → String
  | .otherE s _ => s
  | _ => ""

/-- Python rendering of an `Optional[int]` inside an f-string. -/
def pyOptNatStr : Option Nat → String
  | some n => toString n
  | none => "None"

/-- `startsWithL pat l` is true when `pat` is an initial segment of `l`. -/
def startsWithL : List Char → List Char → Bool
  | [], _ => true
  | _ :: _, [] => false
  | p :: ps, c :: cs => p == c && startsWithL ps cs

/-- Occurrence of `needle` as a contiguous substring of the list. -/
def occursIn (needle : List Char) : List Char → Bool
  | [] => needle.isEmpty
  | c :: rest => startsWithL needle (c :: rest) || occursIn needle rest

/-- `strOccurs needle hay` : `needle` occurs as a substring of `hay`
(Python's `needle in hay`). -/
def strOccurs (needle hay : String) : Bool :=
  occursIn needle.data hay.data

/-- Left-to-right scan of Python's `str.replace` for a nonempty pattern:
at each position, a match of `pat` is consumed and `rep` emitted, otherwise
one character is copied.  The `fuel` argument makes the recursion structural;
each step consumes at least one character, so with `fuel` initialised to the
length of the scanned list the `0` case is never reached on a nonempty
remainder. -/
def pyReplaceCore (pat rep : List Char) : Nat → List Char → List Char
  | _, [] => []
  | 0, rest => rest
  | Nat.succ fuel, c :: rest =>
    if startsWithL pat (c :: rest) then
      rep ++ pyReplaceCore pat rep fuel (List.drop (pat.length - 1) rest)
    else
      c :: pyReplaceCore pat rep fuel rest

/-- Python's `s.replace(pat, rep)` (all occurrences).  For an empty pattern
Python inserts `rep` at every gap, including both ends. -/
def pyReplace (s pat rep : String) : String :=
  if pat.data = [] then
    String.mk (rep.data ++ s.data.foldr (fun c acc => c :: (rep.data ++ acc)) [])
  else
    String.mk (pyReplaceCore pat.data rep.data s.data.length s.data)

/-- Core scan of Python's `str.title`: an alphabetic character is uppercased
after a non-cased character and lowercased otherwise (ASCII case mapping,
which coincides with Python on the strings involved here). -/
def pyTitleCore : Bool → List Char → List Char
  | _, [] => []
  | prev, c :: rest =>
    if c.isAlpha then
      (if prev then c.toLower else c.toUpper) :: pyTitleCore true rest
    else
      c :: pyTitleCore false rest

/-- Python's `s.title()`. -/
def pyTitle (s : String) : String :=
  String.mk (pyTitleCore false s.data)

/-- Python's `s.upper()` (ASCII case mapping, as `Char.toUpper`). -/
def pyUpper (s : String) : String :=
  String.mk (s.data.map Char.toUpper)

/-- Class attribute `CurrencyConverter.BASE_URL`. -/
def BASE_URL : String := "https://v6.exchangerate-api.com/v6/"

/-- The fixed redaction marker of line 49. -/
def REDACTED_MARKER : String := "***REDACTED_API_KEY***"

/-- Line 19: `full_url = f'{self.BASE_URL}{self.api_key}{endpoint}'`. -/
def fullUrl (api_key endpoint : String) : String :=
  BASE_URL ++ api_key ++ endpoint

/-- The `except (RequestException, ValueError)` block, lines 28-57: classify
the caught exception and build the `ExchangeRateAPIError` that is raised. -/
def classifyRequestExc (api_key full_url : String) (e : ReqExc) : ExchangeRateAPIError :=
  let status_code := excResponseStatus e
  let api_error_type :=
    match e with
    | .httpError _ _ => "http-error"
    | .timeoutE => "timeout"
    | .connectionE => "network-error"
    | .jsonDecodeE => "json-decode-error"
    | .otherE _ _ => "unknown-request-error"
  let user_message :=
    match e with
    | .httpError _ reason =>
        if status_code = some 404 then
          "The requested currency or API endpoint was not found."
        else
          "API request failed with HTTP Error " ++ pyOptNatStr status_code ++ ": " ++ reason ++ "."
    | .timeoutE => "The request to the currency API timed out."
    | .connectionE => "A network connection error occurred to the currency API."
    | .jsonDecodeE => "Failed to decode the JSON response from the API."
    | .otherE estr _ => "An unexpected error occurred: " ++ estr
  let redacted_url := pyReplace full_url api_key REDACTED_MARKER
  { message := user_message
    api_error_type := some api_error_type
    http_status_code := status_code
    details := some (Json.obj [("requested_url_redacted", Json.str redacted_url)]) }

/-- The `try` block, lines 21-26: `requests.get`, `raise_for_status`,
`response.json()`, producing either the received status and parsed body or
the exception the `except` clause catches. -/
def tryPhase : Transport → Except ReqExc (Nat × Json)
  | .timeoutExc => .error .timeoutE
  | .connectionErrorExc => .error .connectionE
  | .otherRequestExc s r => .error (.otherE s r)
  | .response st reason body =>
      if raisesForStatus st then .error (.httpError st reason)
      else
        match body with
        | none => .error .jsonDecodeE
        | some j => .ok (st, j)

/-- `dict` lookup for parsed JSON objects (`data.get(k)`). -/
def lookupKey (kvs : List (String × Json)) (k : String) : Option Json :=
  match kvs with
  | [] => none
  | (k2, v) :: rest => if k2 = k then some v else lookupKey rest k

/-- The `error_messages` table, lines 66-70. -/
def error_messages : List (String × String) :=
  [("unsupported-code", "Currency code not supported by API. Please check the currency code."),
   ("invalid-key", "Invalid API key provided. Please check your API key."),
   ("quota-reached", "API quota reached. Please try again later or upgrade your plan.")]

/-- The fallback message of line 71:
`f"Currency API returned an unhandled error: {api_error_type.replace('-', ' ').title()}."`. -/
def unhandledErrorMessage (code : String) : String :=
  "Currency API returned an unhandled error: " ++ pyTitle (pyReplace code "-" " ") ++ "."

/-- The error raised on the `result == 'error'` branch, lines 64-78, for a
string error-type code `c` (either the API-supplied one or the default
`"unknown-api-error"`). -/
def mkResultErrorRaise (c : String) (status : Nat) (data : Json) : ExchangeRateAPIError :=
  let user_message :=
    match List.lookup c error_messages with
    | some m => m
    | none => unhandledErrorMessage c
  { message := user_message
    api_error_type := some c
    http_status_code := some status
    details := some data }

/-- Rendering of `data.get('result')` inside the f-string of line 82.
Scalar values follow Python's `str`; composite values are abstracted (no
claim inspects this text for them). -/
def pyStrOfGet : Option Json → String
  | none => "None"
  | some (.str s) => s
  | some (.num q) => toString q
  | some (.bool b) => if b then "True" else "False"
  | some .null => "None"
  | some (.arr _) => "[...]"
  | some (.obj _) => "\x7b...\x7d"

/-- The error raised on the final branch, lines 81-86, when the `result`
field is neither `"success"` nor `"error"`. -/
def mkUnexpectedRaise (res : Option Json) (status : Nat) (data : Json) : ExchangeRateAPIError :=
  { message := "Unexpected \x27result\x27 value in API response: " ++ pyStrOfGet res ++ "."
    api_error_type := some "unexpected-response-format"
    http_status_code := some status
    details := some data }

/-- `CurrencyConverter._make_api_request(self, endpoint)`, lines 14-86, as a
function of the configured `api_key`, the `endpoint` argument, and the
outcome `t` of the HTTP attempt.  Python's `data.get('result') == 'success'`
(and `== 'error'`) is true exactly when the looked-up value is that string,
hence the pattern match on `lookupKey kvs "result"`. -/
def makeApiRequest (api_key endpoint : String) (t : Transport) : Except PyError Json :=
  let full_url := fullUrl api_key endpoint
  match tryPhase t with
  | .error e => .error (.apiError (classifyRequestExc api_key full_url e))
  | .ok (status, data) =>
      match data with
      | .obj kvs =>
          match lookupKey kvs "result" with
          | some (Json.str s) =>
              if s = "success" then
                .ok (Json.obj kvs)
              else if s = "error" then
                match lookupKey kvs "error-type" with
                | some (Json.str c) =>
                    .error (.apiError (mkResultErrorRaise c status (Json.obj kvs)))
                | none =>
                    .error (.apiError (mkResultErrorRaise "unknown-api-error" status (Json.obj kvs)))
                | some _ =>
                    -- `data.get('error-type')` returned a non-string: the eagerly
                    -- evaluated default argument of `error_messages.get` calls
                    -- `.replace` on it, raising `AttributeError`.
                    .error (.attributeError "no attribute replace")
              else
                .error (.apiError (mkUnexpectedRaise (some (Json.str s)) status (Json.obj kvs)))
          | res =>
              .error (.apiError (mkUnexpectedRaise res status (Json.obj kvs)))
      | _ =>
          -- `data.get('result')` on a non-dict `response.json()` value
          -- raises `AttributeError`.
          .error (.attributeError "no attribute get")

/-- Modelled from the spec: `CurrencyConverter.get_exchange_rate` in the
source is an unimplemented stub (its body is `pass`, with the endpoint
construction only present as a comment), so the operation
`fetchLatestRates(baseCurrencyCode)` of spec section 4.1 is modelled from the
spec's words: build the endpoint `/latest/{CODE}` from the uppercased code,
with no other validation, and delegate to the request helper. -/
def fetchLatestRates (api_key base_currency : String) (t : Transport) : Except PyError Json :=
  makeApiRequest api_key ("/latest/" ++ pyUpper base_currency) t

mutual
/-- Occurrence of a string inside a JSON value: in a string leaf or in an
object key. -/
def jsonHasStr (needle : String) : Json → Bool
  | .str s => strOccurs needle s
  | .num _ => false
  | .bool _ => false
  | .null => false
  | .arr xs => jsonListHas needle xs
  | .obj kvs => jsonKvsHas needle kvs
def jsonListHas (needle : String) : List Json → Bool
  | [] => false
  | x :: xs => jsonHasStr needle x || jsonListHas needle xs
def jsonKvsHas (needle : String) : List (String × Json) → Bool
  | [] => false
  | (k, v) :: rest => strOccurs needle k || jsonHasStr needle v || jsonKvsHas needle rest
end

/-! ## Helper lemmas -/

/-- ASCII uppercasing is idempotent. -/
theorem toUpper_idem (c : Char) : c.toUpper.toUpper = c.toUpper := by
  simp only [Char.toUpper]
  by_cases h : c.toNat ≥ 97 ∧ c.toNat ≤ 122
  · have hval : Nat.isValidChar (c.toNat - 32) := Or.inl (by omega)
    have hv : (Char.ofNat (c.toNat - 32)).toNat = c.toNat - 32 := by
      unfold Char.ofNat
      rw [dif_pos hval]
      rfl
    have hn : ¬((Char.ofNat (c.toNat - 32)).toNat ≥ 97 ∧
        (Char.ofNat (c.toNat - 32)).toNat ≤ 122) := by
      rw [hv]; omega
    rw [if_pos h, if_neg hn]
  · rw [if_neg h, if_neg h]

/-- Python's `upper` is idempotent. -/
theorem pyUpper_idem (s : String) : pyUpper (pyUpper s) = pyUpper s := by
  unfold pyUpper
  rw [show (String.mk (s.data.map Char.toUpper)).data = s.data.map Char.toUpper from rfl,
    List.map_map]
  have hfun : Char.toUpper ∘ Char.toUpper = Char.toUpper := funext toUpper_idem
  rw [hfun]

/-! ## Claim theorems -/

/-- C1: the claim that no classification branch ever places the configured
credential in `message` or `details` fails on the code.  The catch-all branch
(line 31) builds `message` from `str(e)` without redaction, so a caught
`RequestException` outside the four specifically handled subtypes whose text
includes the request URL puts the key in `message`; and the API-reported-error
branch (line 77) stores the parsed response body unredacted in `details`, so a
body echoing the key puts the key in `details`. -/
theorem C1_credential_leak :
    makeApiRequest "SECRETKEY" "/latest/USD"
        (Transport.otherRequestExc
          "Max retries exceeded with url: /v6/SECRETKEY/latest/USD" none)
      = Except.error (PyError.apiError
        { message := "An unexpected error occurred: Max retries exceeded with url: /v6/SECRETKEY/latest/USD"
          api_error_type := some "unknown-request-error"
          http_status_code := none
          details := some (Json.obj [("requested_url_redacted",
            Json.str (pyReplace (fullUrl "SECRETKEY" "/latest/USD") "SECRETKEY" REDACTED_MARKER))]) })
    ∧ strOccurs "SECRETKEY"
        "An unexpected error occurred: Max retries exceeded with url: /v6/SECRETKEY/latest/USD" = true
    ∧ makeApiRequest "SECRETKEY" "/latest/USD"
        (Transport.response 200 "OK" (some (Json.obj
          [("result", Json.str "error"), ("error-type", Json.str "SECRETKEY")])))
      = Except.error (PyError.apiError
        { message := "Currency API returned an unhandled error: Secretkey."
          api_error_type := some "SECRETKEY"
          http_status_code := some 200
          details := some (Json.obj
            [("result", Json.str "error"), ("error-type", Json.str "SECRETKEY")]) })
    ∧ jsonHasStr "SECRETKEY" (Json.obj
        [("result", Json.str "error"), ("error-type", Json.str "SECRETKEY")]) = true := by
  refine ⟨rfl, rfl, rfl, ?_⟩
  simp only [jsonHasStr, jsonKvsHas]
  decide

/-- C2: the claim that only a success payload or an `ExchangeRateAPIError`
can be produced fails on the code: a received 2xx response whose body is
valid JSON but not an object (here the array `[1, 2]`) makes
`data.get('result')` raise `AttributeError`, which escapes the operation. -/
theorem C2_attributeError_escapes :
    makeApiRequest "k3" "/latest/USD"
        (Transport.response 200 "OK" (some (Json.arr [Json.num 1, Json.num 2])))
      = Except.error (PyError.attributeError "no attribute get") :=
  rfl

/-- C5: the claim fails on the code.  For a received 404, `e.response` is
falsy (`requests.Response.__bool__` is `False` for 4xx/5xx), so line 32 sets
`status_code = None`: the raised error has category `http-error` but
`http_status_code` absent instead of 404, and the message is the generic
"API request failed with HTTP Error None: Not Found." — the specialized
404 message is unreachable and the message does not mention "not found". -/
theorem C5_http_404_loses_status :
    makeApiRequest "SENTINELKEY" "/latest/USD"
        (Transport.response 404 "Not Found" (some (Json.obj [])))
      = Except.error (PyError.apiError
        { message := "API request failed with HTTP Error None: Not Found."
          api_error_type := some "http-error"
          http_status_code := none
          details := some (Json.obj [("requested_url_redacted",
            Json.str (pyReplace (fullUrl "SENTINELKEY" "/latest/USD") "SENTINELKEY" REDACTED_MARKER))]) })
    ∧ strOccurs "not found" "API request failed with HTTP Error None: Not Found." = false :=
  ⟨rfl, rfl⟩

/-- C6: a transport-level connection failure is classified `network-error`
and an expired timeout is classified `timeout`, both with `http_status_code`
absent, for every configured key and endpoint. -/
theorem C6_transport_failures_classified (key ep : String) :
    makeApiRequest key ep Transport.connectionErrorExc
      = Except.error (PyError.apiError
        { message := "A network connection error occurred to the currency API."
          api_error_type := some "network-error"
          http_status_code := none
          details := some (Json.obj [("requested_url_redacted",
            Json.str (pyReplace (fullUrl key ep) key REDACTED_MARKER))]) })
    ∧ makeApiRequest key ep Transport.timeoutExc
      = Except.error (PyError.apiError
        { message := "The request to the currency API timed out."
          api_error_type := some "timeout"
          http_status_code := none
          details := some (Json.obj [("requested_url_redacted",
            Json.str (pyReplace (fullUrl key ep) key REDACTED_MARKER))]) }) :=
  ⟨rfl, rfl⟩

/-- C3 counterexample: on the API-reported-error path the claim fails — the
raised error's `details` is the parsed response body, not the redacted-URL
mapping. -/
theorem C3_details_body_counterexample :
    makeApiRequest "KEY1" "/latest/USD"
        (Transport.response 200 "OK" (some (Json.obj
          [("result", Json.str "error"), ("error-type", Json.str "quota-reached")])))
      = Except.error (PyError.apiError
        { message := "API quota reached. Please try again later or upgrade your plan."
          api_error_type := some "quota-reached"
          http_status_code := some 200
          details := some (Json.obj
            [("result", Json.str "error"), ("error-type", Json.str "quota-reached")]) })
    ∧ Json.obj [("result", Json.str "error"), ("error-type", Json.str "quota-reached")]
        ≠ Json.obj [("requested_url_redacted",
            Json.str (pyReplace (fullUrl "KEY1" "/latest/USD") "KEY1" REDACTED_MARKER))] := by
  refine ⟨rfl, ?_⟩
  intro hcontra
  simp only [Json.obj.injEq, List.cons.injEq, Prod.mk.injEq] at hcontra
  exact absurd hcontra.1.1 (by decide)

/-- C3 (amended): every error raised from the request/parse exception
handler carries as `details` exactly the single-key mapping
`requested_url_redacted` whose value is the full request URL with the
credential replaced by the fixed marker, computed before the error value is
constructed; errors raised for API-reported failures carry the parsed
response body instead. -/
theorem C3_exception_details_redacted (key ep : String) (t : Transport) (e : ReqExc)
    (h : tryPhase t = Except.error e) :
    makeApiRequest key ep t
      = Except.error (PyError.apiError (classifyRequestExc key (fullUrl key ep) e))
    ∧ (classifyRequestExc key (fullUrl key ep) e).details
      = some (Json.obj [("requested_url_redacted",
          Json.str (pyReplace (fullUrl key ep) key REDACTED_MARKER))]) := by
  constructor
  · simp only [makeApiRequest, h]
  · rfl

/-- C3 witness: the theorem at a concrete timeout run. -/
theorem C3_exception_details_redacted_witness :
    makeApiRequest "KEY2" "/latest/GBP" Transport.timeoutExc
      = Except.error (PyError.apiError
          (classifyRequestExc "KEY2" (fullUrl "KEY2" "/latest/GBP") ReqExc.timeoutE))
    ∧ (classifyRequestExc "KEY2" (fullUrl "KEY2" "/latest/GBP") ReqExc.timeoutE).details
      = some (Json.obj [("requested_url_redacted",
          Json.str (pyReplace (fullUrl "KEY2" "/latest/GBP") "KEY2" REDACTED_MARKER))]) :=
  C3_exception_details_redacted "KEY2" "/latest/GBP" Transport.timeoutExc ReqExc.timeoutE rfl

/-- C4: when the body parses with `result = "error"` and a string
`error-type` code `c`, the raised error's category is `c` verbatim, its
message is the fixed friendly string for each of the three known codes, and
otherwise the unhandled-error string built from `c` with hyphens replaced by
spaces and title-cased; the body itself is stored in `details`. -/
theorem C4_api_error_category_message (key ep reason : String) (status : Nat)
    (kvs : List (String × Json)) (c : String)
    (hst : raisesForStatus status = false)
    (hres : lookupKey kvs "result" = some (Json.str "error"))
    (hty : lookupKey kvs "error-type" = some (Json.str c)) :
    makeApiRequest key ep (Transport.response status reason (some (Json.obj kvs)))
      = Except.error (PyError.apiError
        { message :=
            if c = "unsupported-code" then
              "Currency code not supported by API. Please check the currency code."
            else if c = "invalid-key" then
              "Invalid API key provided. Please check your API key."
            else if c = "quota-reached" then
              "API quota reached. Please try again later or upgrade your plan."
            else
              "Currency API returned an unhandled error: " ++ pyTitle (pyReplace c "-" " ") ++ "."
          api_error_type := some c
          http_status_code := some status
          details := some (Json.obj kvs) }) := by
  simp only [makeApiRequest, tryPhase, hst, hres, hty, Bool.false_eq_true, if_false]
  by_cases h1 : c = "unsupported-code"
  · subst h1; rfl
  by_cases h2 : c = "invalid-key"
  · subst h2; rfl
  by_cases h3 : c = "quota-reached"
  · subst h3; rfl
  have e1 : (c == "unsupported-code") = false := beq_eq_false_iff_ne.mpr h1
  have e2 : (c == "invalid-key") = false := beq_eq_false_iff_ne.mpr h2
  have e3 : (c == "quota-reached") = false := beq_eq_false_iff_ne.mpr h3
  simp [mkResultErrorRaise, error_messages, unhandledErrorMessage, List.lookup,
    e1, e2, e3, h1, h2, h3]

/-- C4 witness: the theorem at the spec's example, an unknown code
`some-new-code`, whose message title-cases to "Some New Code". -/
theorem C4_api_error_category_message_witness :
    makeApiRequest "k4" "/latest/USD"
        (Transport.response 200 "OK" (some (Json.obj
          [("result", Json.str "error"), ("error-type", Json.str "some-new-code")])))
      = Except.error (PyError.apiError
        { message := "Currency API returned an unhandled error: Some New Code."
          api_error_type := some "some-new-code"
          http_status_code := some 200
          details := some (Json.obj
            [("result", Json.str "error"), ("error-type", Json.str "some-new-code")]) }) :=
  C4_api_error_category_message "k4" "/latest/USD" "OK" 200
    [("result", Json.str "error"), ("error-type", Json.str "some-new-code")]
    "some-new-code" rfl rfl rfl

/-- C7 counterexample: for a received 200 response with an unparseable body
the raised error has category `json-decode-error` but `http_status_code`
absent, not equal to the actual status 200. -/
theorem C7_status_absent_counterexample :
    makeApiRequest "k1" "/latest/USD" (Transport.response 200 "OK" none)
      = Except.error (PyError.apiError
        { message := "Failed to decode the JSON response from the API."
          api_error_type := some "json-decode-error"
          http_status_code := none
          details := some (Json.obj [("requested_url_redacted",
            Json.str (pyReplace (fullUrl "k1" "/latest/USD") "k1" REDACTED_MARKER))]) })
    ∧ (none : Option Nat) ≠ some 200 :=
  ⟨rfl, by decide⟩

/-- C7 (amended): a received 2xx response whose body is not parseable as
JSON raises an error with category `json-decode-error` and
`http_status_code` absent, since the decode exception carries no truthy
`response` attribute. -/
theorem C7_json_decode_classified (key ep reason : String) (status : Nat)
    (h2xx : 200 ≤ status ∧ status < 300) :
    makeApiRequest key ep (Transport.response status reason none)
      = Except.error (PyError.apiError
        { message := "Failed to decode the JSON response from the API."
          api_error_type := some "json-decode-error"
          http_status_code := none
          details := some (Json.obj [("requested_url_redacted",
            Json.str (pyReplace (fullUrl key ep) key REDACTED_MARKER))]) }) := by
  have hb : raisesForStatus status = false := by
    simp only [raisesForStatus, Bool.and_eq_false_iff, decide_eq_false_iff_not]
    omega
  simp only [makeApiRequest, tryPhase, hb, Bool.false_eq_true, if_false]
  rfl

/-- C7 witness: the amended theorem at a concrete 204 response. -/
theorem C7_json_decode_classified_witness :
    makeApiRequest "k2" "/latest/EUR" (Transport.response 204 "No Content" none)
      = Except.error (PyError.apiError
        { message := "Failed to decode the JSON response from the API."
          api_error_type := some "json-decode-error"
          http_status_code := none
          details := some (Json.obj [("requested_url_redacted",
            Json.str (pyReplace (fullUrl "k2" "/latest/EUR") "k2" REDACTED_MARKER))]) }) :=
  C7_json_decode_classified "k2" "/latest/EUR" "No Content" 204 (by decide)

/-- C8: whenever the received response does not trip `raise_for_status` and
its body parses to an object whose `result` field is the string
`"success"`, the decoded payload is returned unchanged. -/
theorem C8_success_roundtrip (key ep reason : String) (status : Nat)
    (kvs : List (String × Json))
    (hst : raisesForStatus status = false)
    (hres : lookupKey kvs "result" = some (Json.str "success")) :
    makeApiRequest key ep (Transport.response status reason (some (Json.obj kvs)))
      = Except.ok (Json.obj kvs) := by
  simp only [makeApiRequest, tryPhase, hst, hres, Bool.false_eq_true, if_false]
  rfl

/-- C8 witness: round-trip identity at the spec's example payload. -/
theorem C8_success_roundtrip_witness :
    makeApiRequest "k5" "/latest/USD" (Transport.response 200 "OK" (some (Json.obj
      [("result", Json.str "success"), ("base_code", Json.str "USD"),
       ("conversion_rates", Json.obj [("EUR", Json.num (9 / 10))])])))
      = Except.ok (Json.obj
          [("result", Json.str "success"), ("base_code", Json.str "USD"),
           ("conversion_rates", Json.obj [("EUR", Json.num (9 / 10))])]) :=
  C8_success_roundtrip "k5" "/latest/USD" "OK" 200
    [("result", Json.str "success"), ("base_code", Json.str "USD"),
     ("conversion_rates", Json.obj [("EUR", Json.num (9 / 10))])] rfl rfl

/-- C9: the fetch operation builds the request target from the uppercased
currency code for every input string, with no other validation — the
operation is total in the code argument, delegates unconditionally, and is
invariant under pre-uppercasing the code. -/
theorem C9_uppercase_normalization (key code : String) (t : Transport) :
    fetchLatestRates key code t = makeApiRequest key ("/latest/" ++ pyUpper code) t
    ∧ fetchLatestRates key code t = fetchLatestRates key (pyUpper code) t := by
  refine ⟨rfl, ?_⟩
  unfold fetchLatestRates
  rw [pyUpper_idem]

/-- C10: a parsed body with `result = "error"` and no `error-type` field
defaults the category to `unknown-api-error`, and the message is the
unhandled-error string formed from that default code. -/
theorem C10_missing_error_type_defaults (key ep reason : String) (status : Nat)
    (kvs : List (String × Json))
    (hst : raisesForStatus status = false)
    (hres : lookupKey kvs "result" = some (Json.str "error"))
    (hty : lookupKey kvs "error-type" = none) :
    makeApiRequest key ep (Transport.response status reason (some (Json.obj kvs)))
      = Except.error (PyError.apiError
        { message := "Currency API returned an unhandled error: Unknown Api Error."
          api_error_type := some "unknown-api-error"
          http_status_code := some status
          details := some (Json.obj kvs) }) := by
  simp only [makeApiRequest, tryPhase, hst, hres, hty, Bool.false_eq_true, if_false]
  rfl

/-- C10 witness: the theorem at a concrete body lacking `error-type`. -/
theorem C10_missing_error_type_defaults_witness :
    makeApiRequest "k6" "/latest/USD"
        (Transport.response 200 "OK" (some (Json.obj [("result", Json.str "error")])))
      = Except.error (PyError.apiError
        { message := "Currency API returned an unhandled error: Unknown Api Error."
          api_error_type := some "unknown-api-error"
          http_status_code := some 200
          details := some (Json.obj [("result", Json.str "error")]) }) :=
  C10_missing_error_type_defaults "k6" "/latest/USD" "OK" 200
    [("result", Json.str "error")] rfl rfl rfl

end Banking
